import Mathlib

/-!
Verification of the MoviWebApp data-access layer and web routes.

The storage engine (SQLAlchemy over SQLite) is modelled as an explicit
`DB` state: lists of `User` and `Movie` rows plus surrogate-key counters.
A commit either succeeds (the staged state satisfies every declared
schema constraint) or fails with an integrity violation, in which case
the transaction is rolled back and the committed state is unchanged —
exactly the `commit / except IntegrityError: rollback` pattern of
`data_manager.py`.
-/

namespace MoviWeb

/-- Row of the `users` table (`models.py`): surrogate integer primary key
and a unique, non-null name. -/
structure User where
  id : Nat
  name : String
deriving DecidableEq, Repr

/-- Row of the `movies` table (`models.py`): surrogate key, non-null title,
optional director / year / poster_url, and a non-null foreign key to the
owning user.  The pair (user_id, title) is declared unique
(`uq_user_movie_title`). -/
structure Movie where
  id : Nat
  title : String
  director : Option String
  year : Option Int
  poster_url : Option String
  user_id : Nat
deriving DecidableEq, Repr

/-- The committed storage state: the two tables plus the engine's
auto-increment counters for the surrogate primary keys. -/
structure DB where
  users : List User
  movies : List Movie
  nextUserId : Nat
  nextMovieId : Nat
deriving DecidableEq, Repr

/-- Domain errors raised by the DataManager (`ValueError` in Python,
classified by raise site as the spec's InvalidInput / NotFound /
DuplicateResource kinds). -/
inductive DMError where
  | invalidInput (msg : String)
  | notFound (msg : String)
  | duplicate (msg : String)
deriving DecidableEq, Repr

/-- Message carried by a domain error (the `str(exc)` the routes render). -/
def DMError.message : DMError → String
  | .invalidInput m => m
  | .notFound m => m
  | .duplicate m => m

/-- Python's `str.strip()`: remove leading and trailing whitespace.
Implemented structurally over the character list so that concrete
instances evaluate inside the kernel. -/
def pyStrip (s : String) : String :=
  ⟨((s.data.dropWhile Char.isWhitespace).reverse.dropWhile Char.isWhitespace).reverse⟩

/-- The text before the first en-dash, as in `s.split("–")[0]`. -/
def beforeEnDash (s : String) : String :=
  ⟨s.data.takeWhile fun c => c != '–'⟩

/-- Python's `str.isdigit` on the ASCII digits the year field uses:
non-empty and all characters are 0-9. -/
def pyIsdigit (s : String) : Bool :=
  !s.data.isEmpty && s.data.all fun c => c.isDigit

/-- Python's `int(s)` on an all-digit string. -/
def pyInt (s : String) : Nat :=
  s.data.foldl (fun acc c => acc * 10 + (c.toNat - 48)) 0

/-- The `users.name UNIQUE` constraint: no two rows share a name. -/
def namesUnique : List User → Bool
  | [] => true
  | u :: rest => !(rest.any fun v => v.name == u.name) && namesUnique rest

/-- The `uq_user_movie_title` constraint: no two rows share (user_id, title). -/
def movieKeysUnique : List Movie → Bool
  | [] => true
  | m :: rest =>
    !(rest.any fun x => x.user_id == m.user_id && x.title == m.title) &&
      movieKeysUnique rest

/-- The `movies.user_id` foreign-key constraint: every movie row references
an existing user row. -/
def fkOK (users : List User) (movies : List Movie) : Bool :=
  movies.all fun m => users.any fun u => u.id == m.user_id

/-- A state satisfies every declared schema constraint; `commit` succeeds
exactly when the staged state does, otherwise it raises `IntegrityError`. -/
def integrityOK (db : DB) : Bool :=
  namesUnique db.users && movieKeysUnique db.movies && fkOK db.users db.movies

/-- `DataManager.create_user` (`data_manager.py` 27-51): trims the name,
rejects an empty trimmed name, stages the new row and commits; an
integrity violation is rolled back and re-raised as a duplicate error. -/
def create_user (db : DB) (name : String) : Except DMError User × DB :=
  if pyStrip name = "" then
    (.error (.invalidInput "User name cannot be empty."), db)
  else if integrityOK { db with
      users := db.users ++ [{ id := db.nextUserId, name := pyStrip name }],
      nextUserId := db.nextUserId + 1 } then
    (.ok { id := db.nextUserId, name := pyStrip name },
     { db with
        users := db.users ++ [{ id := db.nextUserId, name := pyStrip name }],
        nextUserId := db.nextUserId + 1 })
  else
    (.error (.duplicate ("User \"" ++ pyStrip name ++ "\" already exists.")), db)

/-- `DataManager.get_user`: lookup by primary key. -/
def get_user (db : DB) (user_id : Nat) : Option User :=
  db.users.find? fun u => u.id == user_id

/-- `DataManager.get_movie`: lookup by primary key. -/
def get_movie (db : DB) (movie_id : Nat) : Option Movie :=
  db.movies.find? fun m => m.id == movie_id

/-- `DataManager.get_movies`: all movies of a user, ordered by title. -/
def get_movies (db : DB) (user_id : Nat) : List Movie :=
  ((db.movies.filter fun m => m.user_id == user_id).mergeSort
    fun a b => decide (a.title ≤ b.title))

/-- `DataManager.add_movie` (`data_manager.py` 74-120): trims the title,
rejects an empty trimmed title, rejects a missing user, stages the new
row and commits; an integrity violation is rolled back and re-raised as
a duplicate error. -/
def add_movie (db : DB) (user_id : Nat) (title : String)
    (director : Option String) (year : Option Int)
    (poster_url : Option String) : Except DMError Movie × DB :=
  if pyStrip title = "" then
    (.error (.invalidInput "Movie title cannot be empty."), db)
  else if !(db.users.any fun u => u.id == user_id) then
    (.error (.notFound "User does not exist."), db)
  else if integrityOK { db with
      movies := db.movies ++
        [{ id := db.nextMovieId, title := pyStrip title, director := director,
           year := year, poster_url := poster_url, user_id := user_id }],
      nextMovieId := db.nextMovieId + 1 } then
    (.ok { id := db.nextMovieId, title := pyStrip title, director := director,
           year := year, poster_url := poster_url, user_id := user_id },
     { db with
        movies := db.movies ++
          [{ id := db.nextMovieId, title := pyStrip title, director := director,
             year := year, poster_url := poster_url, user_id := user_id }],
        nextMovieId := db.nextMovieId + 1 })
  else
    (.error (.duplicate "This user already has a movie with that title."), db)

/-- The keyword-argument field map accepted by `update_movie`.  A slot is
`none` when the key is absent, `some v` when supplied (Python allows a
supplied value to itself be null, hence the nested `Option`).  Keys
outside the allow-list {title, director, year, poster_url} are popped by
the code before use, so they carry no effect and are recorded only by
name. -/
structure UpdateFields where
  title : Option (Option String) := none
  director : Option (Option String) := none
  year : Option (Option Int) := none
  poster_url : Option (Option String) := none
  others : List String := []
deriving DecidableEq, Repr

/-- True when the `title` key is supplied but its value trims to empty
(`if "title" in fields and not (fields["title"] or "").strip()`). -/
def titleSuppliedEmpty (f : UpdateFields) : Bool :=
  match f.title with
  | some tv => pyStrip (tv.getD "") == ""
  | none => false

/-- The `setattr` loop of `update_movie`: overwrite exactly the supplied
allow-listed fields of a row, leaving the rest (including `id` and
`user_id`) untouched. -/
def applyFields (f : UpdateFields) (m : Movie) : Movie :=
  { m with
    title := match f.title with | some (some t) => t | _ => m.title,
    director := f.director.getD m.director,
    year := f.year.getD m.year,
    poster_url := f.poster_url.getD m.poster_url }

/-- `DataManager.update_movie` (`data_manager.py` 122-154): lookup by
primary key, reject a supplied-but-empty title, apply the supplied
fields and commit; an integrity violation is rolled back and re-raised
as a duplicate error.  Rows are keyed by the primary key `id`; on states
reachable through the engine at most one row matches. -/
def update_movie (db : DB) (movie_id : Nat) (f : UpdateFields) :
    Except DMError Movie × DB :=
  match db.movies.find? fun m => m.id == movie_id with
  | none => (.error (.notFound "Movie not found."), db)
  | some m =>
    if titleSuppliedEmpty f then
      (.error (.invalidInput "Title cannot be empty."), db)
    else if integrityOK { db with
        movies := db.movies.map fun x =>
          if x.id == movie_id then applyFields f x else x } then
      (.ok (applyFields f m),
       { db with
          movies := db.movies.map fun x =>
            if x.id == movie_id then applyFields f x else x })
    else
      (.error (.duplicate "Duplicate movie title for this user."), db)

/-- `DataManager.delete_movie` (`data_manager.py` 156-169): lookup by
primary key, delete and commit (deletion cannot violate a constraint). -/
def delete_movie (db : DB) (movie_id : Nat) : Except DMError Unit × DB :=
  if db.movies.any fun m => m.id == movie_id then
    (.ok (), { db with movies := db.movies.filter fun m => !(m.id == movie_id) })
  else
    (.error (.notFound "Movie not found."), db)

/-- Modelled from the spec: the repository declares
`cascade="all, delete-orphan"` on `User.movies` (`models.py` 24-29) but
contains no delete-user operation of its own; per the spec, "Deleting a
user deletes all of that user's movies (cascading ownership)".  Removing
a user therefore also removes every movie row owned by it. -/
def delete_user (db : DB) (user_id : Nat) : DB :=
  { db with
    users := db.users.filter fun u => !(u.id == user_id),
    movies := db.movies.filter fun m => !(m.user_id == user_id) }

/-- The OMDb response fields the application consumes (`omdb.py`,
`app.py`): each may be absent from the JSON body. -/
structure OmdbInfo where
  Title : Option String := none
  Director : Option String := none
  Year : Option String := none
  Poster : Option String := none
  Response : Option String := none
deriving DecidableEq, Repr

/-- The single HTTP GET issued by `fetch_omdb_by_title` (`omdb.py` 37-39):
`https://www.omdbapi.com/` with query parameters t, apikey, type. -/
structure OmdbRequest where
  url : String
  t : String
  apikey : String
  reqType : String
deriving DecidableEq, Repr

/-- `fetch_omdb_by_title` (`omdb.py` 18-41).  The module-level
`OMDB_API_KEY` environment read is the `key` argument (absent or empty
is falsy); the network (`requests.get` + `raise_for_status` + `.json()`)
is the oracle `net`, which either raises (`.error`) or yields a parsed
body (`.ok`; `none` models a JSON `null`).  The second component logs
every request actually issued. -/
def fetch_omdb_by_title (key : Option String) (title : String)
    (net : OmdbRequest → Except String (Option OmdbInfo)) :
    Except String (Option OmdbInfo) × List OmdbRequest :=
  if key.getD "" = "" then
    (.error "OMDB_API_KEY is not set. Create a .env file or export the variable.", [])
  else
    (net { url := "https://www.omdbapi.com/", t := title,
           apikey := key.getD "", reqType := "movie" },
     [{ url := "https://www.omdbapi.com/", t := title,
        apikey := key.getD "", reqType := "movie" }])

/-- Python's `x or default` on an optional string: absent or empty is
falsy and yields the default. -/
def pyOr (x : Option String) (dflt : String) : String :=
  if x.getD "" = "" then dflt else x.getD ""

/-- Year extraction used by both movie-add routes (`app.py` 182-186 and
362-363): take the text before the en-dash, trim it, and convert to an
integer only when it is all digits; otherwise the year is absent. -/
def parseYearField (y : Option String) : Option Int :=
  if pyIsdigit (pyStrip (beforeEnDash (y.getD ""))) then
    some ((pyInt (pyStrip (beforeEnDash (y.getD "")))) : Int)
  else
    none

/-- Poster extraction used by both movie-add routes (`app.py` 188 and
364): the metadata poster field, unless absent or the literal "N/A". -/
def posterField (p : Option String) : Option String :=
  if p = none ∨ p = some "N/A" then none else p

/-- A transient flash message with its category. -/
inductive Flash where
  | success (msg : String)
  | failure (msg : String)
deriving DecidableEq, Repr

/-- HTML route `POST /users/<user_id>/movies` (`app.py` 150-203): trim
the form title, look the title up on OMDb (the oracle `fetch` covers the
network call and any exception it raises), extract director / year /
poster, call `add_movie`, and redirect to the user's list with a flash
either way.  The result is (flashes, redirect-target user id). -/
def add_movie_route (db : DB) (user_id : Nat) (form_title : Option String)
    (fetch : String → Except String (Option OmdbInfo)) :
    (List Flash × Nat) × DB :=
  if (pyStrip (form_title.getD "")) = "" then
    (([.failure "Movie title is required."], user_id), db)
  else
    match fetch (pyStrip (form_title.getD "")) with
    | .error e =>
      (([.failure ("Failed to fetch movie info: " ++ e)], user_id), db)
    | .ok none =>
      (([.failure ("No OMDb results for “" ++ pyStrip (form_title.getD "") ++ "”.")],
        user_id), db)
    | .ok (some info) =>
      if info.Response = some "False" then
        (([.failure ("No OMDb results for “" ++ pyStrip (form_title.getD "") ++ "”.")],
          user_id), db)
      else
        match add_movie db user_id (pyOr info.Title (pyStrip (form_title.getD "")))
            (some (pyOr info.Director "Unknown"))
            (parseYearField info.Year) (posterField info.Poster) with
        | (.ok _, db') =>
          (([.success ("Added “" ++ pyOr info.Title (pyStrip (form_title.getD "")) ++ "”.")],
            user_id), db')
        | (.error e, db') => (([.failure e.message], user_id), db')

/-- A JSON response body. -/
inductive ApiBody where
  | err (msg : String)
  | movieBody (m : Movie)
  | userMovies (u : User) (ms : List Movie)
  | empty
deriving DecidableEq, Repr

/-- JSON route `GET /api/users/<user_id>/movies` (`app.py` 328-344):
404 with a structured error body when the user is absent, else 200 with
the user and their movies. -/
def api_user_movies (db : DB) (user_id : Nat) : (Nat × ApiBody) × DB :=
  match get_user db user_id with
  | none => ((404, .err "user not found"), db)
  | some u => ((200, .userMovies u (get_movies db user_id)), db)

/-- JSON route `POST /api/users/<user_id>/movies` (`app.py` 347-383):
400 for a missing title, 502 when the OMDb request raises, 404 when the
lookup yields no result, 400 when `add_movie` raises a domain error,
201 with the movie on success. -/
def api_add_movie (db : DB) (user_id : Nat) (payload_title : Option String)
    (fetch : String → Except String (Option OmdbInfo)) :
    (Nat × ApiBody) × DB :=
  if (pyStrip (payload_title.getD "")) = "" then
    ((400, .err "title is required"), db)
  else
    match fetch (pyStrip (payload_title.getD "")) with
    | .error e => ((502, .err ("OMDb request failed: " ++ e)), db)
    | .ok none =>
      ((404, .err ("no results for \"" ++ pyStrip (payload_title.getD "") ++ "\"")), db)
    | .ok (some info) =>
      if info.Response = some "False" then
        ((404, .err ("no results for \"" ++ pyStrip (payload_title.getD "") ++ "\"")), db)
      else
        match add_movie db user_id
            (pyOr info.Title (pyStrip (payload_title.getD "")))
            (some (pyOr info.Director "Unknown"))
            (parseYearField info.Year) (posterField info.Poster) with
        | (.ok m, db') => ((201, .movieBody m), db')
        | (.error e, db') => ((400, .err e.message), db')

/-- JSON route `PUT/PATCH /api/movies/<movie_id>` (`app.py` 386-400):
every `ValueError` from `update_movie` — not found, invalid and
duplicate alike — is surfaced as a 400 with a structured error body;
success is 200 with the updated movie. -/
def api_update_movie (db : DB) (movie_id : Nat) (payload : UpdateFields) :
    (Nat × ApiBody) × DB :=
  match update_movie db movie_id payload with
  | (.error e, db') => ((400, .err e.message), db')
  | (.ok m, db') => ((200, .movieBody m), db')

/-- JSON route `DELETE /api/movies/<movie_id>` (`app.py` 403-410):
404 with a structured error body when the movie is absent, else 204. -/
def api_delete_movie (db : DB) (movie_id : Nat) : (Nat × ApiBody) × DB :=
  match delete_movie db movie_id with
  | (.error e, db') => ((404, .err e.message), db')
  | (.ok _, db') => ((204, .empty), db')

/-- Appending one user keeps the name-uniqueness constraint exactly when
it held before and the new name is fresh. -/
theorem namesUnique_append_one (us : List User) (u : User) :
    namesUnique (us ++ [u]) = true ↔
      (namesUnique us = true ∧ ∀ v ∈ us, v.name ≠ u.name) := by
  induction us with
  | nil => simp [namesUnique]
  | cons w ws ih =>
    simp [namesUnique, List.any_append, ih]
    constructor
    · rintro ⟨⟨h1, h2⟩, h3, h4⟩
      exact ⟨⟨h1, h3⟩, fun e => h2 e.symm, h4⟩
    · rintro ⟨⟨h1, h3⟩, h2, h4⟩
      exact ⟨⟨h1, fun e => h2 e.symm⟩, h3, h4⟩

/-- Appending one movie keeps the (user_id, title) uniqueness constraint
exactly when it held before and the new key is fresh. -/
theorem movieKeysUnique_append_one (ms : List Movie) (m : Movie) :
    movieKeysUnique (ms ++ [m]) = true ↔
      (movieKeysUnique ms = true ∧
        ∀ x ∈ ms, ¬(x.user_id = m.user_id ∧ x.title = m.title)) := by
  induction ms with
  | nil => simp [movieKeysUnique]
  | cons w ws ih =>
    simp [movieKeysUnique, List.any_append, ih]
    tauto

/-- Adding a user row cannot break the foreign-key constraint. -/
theorem fkOK_append_user (us : List User) (ms : List Movie) (u : User)
    (h : fkOK us ms = true) : fkOK (us ++ [u]) ms = true := by
  simp only [fkOK, List.all_eq_true, List.any_eq_true] at *
  intro m hm
  obtain ⟨v, hv, he⟩ := h m hm
  exact ⟨v, List.mem_append_left _ hv, he⟩

/-- Appending one movie keeps the foreign-key constraint exactly when it
held before and the new movie's owner exists. -/
theorem fkOK_append_movie (us : List User) (ms : List Movie) (m : Movie) :
    fkOK us (ms ++ [m]) = true ↔
      (fkOK us ms = true ∧ ∃ u ∈ us, u.id = m.user_id) := by
  simp [fkOK, List.all_append]

/-- C1: for every mutating Data Access Layer operation (createUser,
addMovie, updateMovie) and every input, if the operation raises a domain
error because of a uniqueness-constraint violation (a DuplicateResource
error, translated from the storage engine's `IntegrityError`), the
transaction is rolled back before the error is raised and the stored
state is exactly what it was before the call. -/
theorem c1_duplicate_rollback :
    (∀ (db : DB) (name msg : String),
        (create_user db name).1 = .error (.duplicate msg) →
        (create_user db name).2 = db) ∧
    (∀ (db : DB) (uid : Nat) (title : String) (d : Option String)
        (y : Option Int) (p : Option String) (msg : String),
        (add_movie db uid title d y p).1 = .error (.duplicate msg) →
        (add_movie db uid title d y p).2 = db) ∧
    (∀ (db : DB) (mid : Nat) (f : UpdateFields) (msg : String),
        (update_movie db mid f).1 = .error (.duplicate msg) →
        (update_movie db mid f).2 = db) := by
  refine ⟨?_, ?_, ?_⟩
  · intro db name msg
    simp only [create_user]
    split
    · intro h; simp at h
    · split
      · intro h; simp at h
      · intro h; rfl
  · intro db uid title d y p msg
    simp only [add_movie]
    split
    · intro h; simp at h
    · split
      · intro h; simp at h
      · split
        · intro h; simp at h
        · intro h; rfl
  · intro db mid f msg
    simp only [update_movie]
    split
    · intro h; simp at h
    · split
      · intro h; simp at h
      · split
        · intro h; simp at h
        · intro h; rfl

/-- Witness for C1 at concrete duplicate-violating inputs: a second
"Alice", a second movie titled "T" for user 1, and an update renaming
movie 2 to the title movie 1 already has. -/
theorem c1_duplicate_rollback_witness :
    (create_user ⟨[⟨1, "Alice"⟩], [], 2, 1⟩ "Alice").2 = ⟨[⟨1, "Alice"⟩], [], 2, 1⟩ ∧
    (add_movie ⟨[⟨1, "Alice"⟩], [⟨1, "T", none, none, none, 1⟩], 2, 2⟩
        1 "T" none none none).2 =
      ⟨[⟨1, "Alice"⟩], [⟨1, "T", none, none, none, 1⟩], 2, 2⟩ ∧
    (update_movie
        ⟨[⟨1, "Alice"⟩],
         [⟨1, "T", none, none, none, 1⟩, ⟨2, "U", none, none, none, 1⟩], 2, 3⟩
        2 { title := some (some "T") }).2 =
      ⟨[⟨1, "Alice"⟩],
       [⟨1, "T", none, none, none, 1⟩, ⟨2, "U", none, none, none, 1⟩], 2, 3⟩ :=
  ⟨c1_duplicate_rollback.1 _ _ "User \"Alice\" already exists." rfl,
   c1_duplicate_rollback.2.1 _ _ _ _ _ _
     "This user already has a movie with that title." rfl,
   c1_duplicate_rollback.2.2 _ _ _ "Duplicate movie title for this user." rfl⟩

/-- C2: createUser trims surrounding whitespace; on an empty trimmed
name it fails with InvalidInput and persists no record; on an existing
user with the trimmed name it fails with DuplicateResource (state
unchanged); otherwise it persists and returns a User with the trimmed
name. -/
theorem c2_create_user (db : DB) (name : String) (h : integrityOK db = true) :
    (pyStrip name = "" →
      create_user db name =
        (.error (.invalidInput "User name cannot be empty."), db)) ∧
    (pyStrip name ≠ "" → (∃ u ∈ db.users, u.name = pyStrip name) →
      create_user db name =
        (.error (.duplicate ("User \"" ++ pyStrip name ++ "\" already exists.")),
         db)) ∧
    (pyStrip name ≠ "" → (∀ u ∈ db.users, u.name ≠ pyStrip name) →
      create_user db name =
        (.ok { id := db.nextUserId, name := pyStrip name },
         { db with
            users := db.users ++ [{ id := db.nextUserId, name := pyStrip name }],
            nextUserId := db.nextUserId + 1 })) := by
  simp only [integrityOK, Bool.and_eq_true] at h
  obtain ⟨⟨hn, hk⟩, hf⟩ := h
  refine ⟨?_, ?_, ?_⟩
  · intro he
    simp [create_user, he]
  · rintro he ⟨u, hu, hname⟩
    have hbad : ¬(integrityOK { db with
        users := db.users ++ [{ id := db.nextUserId, name := pyStrip name }],
        nextUserId := db.nextUserId + 1 } = true) := by
      simp only [integrityOK, Bool.and_eq_true]
      rintro ⟨⟨h1, -⟩, -⟩
      rw [namesUnique_append_one] at h1
      exact h1.2 u hu hname
    simp [create_user, he, hbad]
  · intro he hfresh
    have hgood : integrityOK { db with
        users := db.users ++ [{ id := db.nextUserId, name := pyStrip name }],
        nextUserId := db.nextUserId + 1 } = true := by
      simp only [integrityOK, Bool.and_eq_true]
      exact ⟨⟨(namesUnique_append_one _ _).mpr ⟨hn, hfresh⟩, hk⟩,
        fkOK_append_user _ _ _ hf⟩
    simp [create_user, he, hgood]

/-- Witness for C2 on a store holding only user "Alice": an all-blank
name is rejected, " Alice " collides after trimming, "Bob" is persisted
trimmed. -/
theorem c2_create_user_witness :
    create_user ⟨[⟨1, "Alice"⟩], [], 2, 1⟩ "   " =
      (.error (.invalidInput "User name cannot be empty."),
       ⟨[⟨1, "Alice"⟩], [], 2, 1⟩) ∧
    create_user ⟨[⟨1, "Alice"⟩], [], 2, 1⟩ " Alice " =
      (.error (.duplicate "User \"Alice\" already exists."),
       ⟨[⟨1, "Alice"⟩], [], 2, 1⟩) ∧
    create_user ⟨[⟨1, "Alice"⟩], [], 2, 1⟩ "Bob" =
      (.ok ⟨2, "Bob"⟩, ⟨[⟨1, "Alice"⟩, ⟨2, "Bob"⟩], [], 3, 1⟩) :=
  ⟨(c2_create_user ⟨[⟨1, "Alice"⟩], [], 2, 1⟩ "   " (by decide)).1 (by decide),
   (c2_create_user ⟨[⟨1, "Alice"⟩], [], 2, 1⟩ " Alice " (by decide)).2.1
     (by decide) ⟨⟨1, "Alice"⟩, by decide, by decide⟩,
   (c2_create_user ⟨[⟨1, "Alice"⟩], [], 2, 1⟩ "Bob" (by decide)).2.2
     (by decide) (by decide)⟩

/-- C3: addMovie trims the title and fails with InvalidInput if the
trimmed title is empty (for every userId, so this check precedes the
user-existence check); fails with NotFound if no user with userId
exists; fails with DuplicateResource if that user already has a movie
with that title; otherwise persists and returns a new Movie linked to
that user. -/
theorem c3_add_movie (db : DB) (uid : Nat) (title : String)
    (d : Option String) (y : Option Int) (p : Option String)
    (h : integrityOK db = true) :
    (pyStrip title = "" →
      add_movie db uid title d y p =
        (.error (.invalidInput "Movie title cannot be empty."), db)) ∧
    (pyStrip title ≠ "" → (∀ u ∈ db.users, u.id ≠ uid) →
      add_movie db uid title d y p =
        (.error (.notFound "User does not exist."), db)) ∧
    (pyStrip title ≠ "" → (∃ u ∈ db.users, u.id = uid) →
      (∃ m ∈ db.movies, m.user_id = uid ∧ m.title = pyStrip title) →
      add_movie db uid title d y p =
        (.error (.duplicate "This user already has a movie with that title."),
         db)) ∧
    (pyStrip title ≠ "" → (∃ u ∈ db.users, u.id = uid) →
      (∀ m ∈ db.movies, ¬(m.user_id = uid ∧ m.title = pyStrip title)) →
      add_movie db uid title d y p =
        (.ok { id := db.nextMovieId, title := pyStrip title, director := d,
               year := y, poster_url := p, user_id := uid },
         { db with
            movies := db.movies ++
              [{ id := db.nextMovieId, title := pyStrip title, director := d,
                 year := y, poster_url := p, user_id := uid }],
            nextMovieId := db.nextMovieId + 1 })) := by
  simp only [integrityOK, Bool.and_eq_true] at h
  obtain ⟨⟨hn, hk⟩, hf⟩ := h
  refine ⟨?_, ?_, ?_, ?_⟩
  · intro he
    simp [add_movie, he]
  · intro he husers
    have hany : (db.users.any fun u => u.id == uid) = false := by
      simp only [List.any_eq_false, beq_iff_eq]
      exact husers
    simp [add_movie, he, hany]
  · rintro he ⟨u, hu, huid⟩ ⟨m, hm, hmu, hmt⟩
    have hany : (db.users.any fun u => u.id == uid) = true := by
      simp only [List.any_eq_true, beq_iff_eq]
      exact ⟨u, hu, huid⟩
    have hbad : ¬(integrityOK { db with
        movies := db.movies ++
          [{ id := db.nextMovieId, title := pyStrip title, director := d,
             year := y, poster_url := p, user_id := uid }],
        nextMovieId := db.nextMovieId + 1 } = true) := by
      simp only [integrityOK, Bool.and_eq_true]
      rintro ⟨⟨-, h2⟩, -⟩
      rw [movieKeysUnique_append_one] at h2
      exact h2.2 m hm ⟨hmu, hmt⟩
    simp [add_movie, he, hany, hbad]
  · rintro he ⟨u, hu, huid⟩ hfresh
    have hany : (db.users.any fun u => u.id == uid) = true := by
      simp only [List.any_eq_true, beq_iff_eq]
      exact ⟨u, hu, huid⟩
    have hgood : integrityOK { db with
        movies := db.movies ++
          [{ id := db.nextMovieId, title := pyStrip title, director := d,
             year := y, poster_url := p, user_id := uid }],
        nextMovieId := db.nextMovieId + 1 } = true := by
      simp only [integrityOK, Bool.and_eq_true]
      exact ⟨⟨hn, (movieKeysUnique_append_one _ _).mpr ⟨hk, hfresh⟩⟩,
        (fkOK_append_movie _ _ _).mpr ⟨hf, u, hu, huid⟩⟩
    simp [add_movie, he, hany, hgood]

/-- Witness for C3 on a store with user 1 "Alice" owning movie "Dup":
a blank title is rejected even for the nonexistent user 99 (precedence),
user 99 is NotFound, " Dup " collides for user 1 after trimming, and
" New " is persisted trimmed and linked to user 1. -/
theorem c3_add_movie_witness :
    add_movie ⟨[⟨1, "Alice"⟩], [⟨1, "Dup", none, none, none, 1⟩], 2, 2⟩
        99 "  " none none none =
      (.error (.invalidInput "Movie title cannot be empty."),
       ⟨[⟨1, "Alice"⟩], [⟨1, "Dup", none, none, none, 1⟩], 2, 2⟩) ∧
    add_movie ⟨[⟨1, "Alice"⟩], [⟨1, "Dup", none, none, none, 1⟩], 2, 2⟩
        99 "New" none none none =
      (.error (.notFound "User does not exist."),
       ⟨[⟨1, "Alice"⟩], [⟨1, "Dup", none, none, none, 1⟩], 2, 2⟩) ∧
    add_movie ⟨[⟨1, "Alice"⟩], [⟨1, "Dup", none, none, none, 1⟩], 2, 2⟩
        1 " Dup " none none none =
      (.error (.duplicate "This user already has a movie with that title."),
       ⟨[⟨1, "Alice"⟩], [⟨1, "Dup", none, none, none, 1⟩], 2, 2⟩) ∧
    add_movie ⟨[⟨1, "Alice"⟩], [⟨1, "Dup", none, none, none, 1⟩], 2, 2⟩
        1 " New " none none none =
      (.ok ⟨2, "New", none, none, none, 1⟩,
       ⟨[⟨1, "Alice"⟩],
        [⟨1, "Dup", none, none, none, 1⟩, ⟨2, "New", none, none, none, 1⟩],
        2, 3⟩) :=
  ⟨(c3_add_movie ⟨[⟨1, "Alice"⟩], [⟨1, "Dup", none, none, none, 1⟩], 2, 2⟩
      99 "  " none none none (by decide)).1 (by decide),
   (c3_add_movie ⟨[⟨1, "Alice"⟩], [⟨1, "Dup", none, none, none, 1⟩], 2, 2⟩
      99 "New" none none none (by decide)).2.1 (by decide) (by decide),
   (c3_add_movie ⟨[⟨1, "Alice"⟩], [⟨1, "Dup", none, none, none, 1⟩], 2, 2⟩
      1 " Dup " none none none (by decide)).2.2.1 (by decide)
      ⟨⟨1, "Alice"⟩, by decide, by decide⟩
      ⟨⟨1, "Dup", none, none, none, 1⟩, by decide, by decide, by decide⟩,
   (c3_add_movie ⟨[⟨1, "Alice"⟩], [⟨1, "Dup", none, none, none, 1⟩], 2, 2⟩
      1 " New " none none none (by decide)).2.2.2 (by decide)
      ⟨⟨1, "Alice"⟩, by decide, by decide⟩ (by decide)⟩

/-- C9: for every existing movie and every field map, updateMovie never
changes any movie's id or user_id and never touches the users table:
only title, director, year and poster_url can be modified, so a movie's
owner is fixed at creation for its entire lifetime. -/
theorem c9_update_movie_frame (db : DB) (mid : Nat) (f : UpdateFields) :
    (update_movie db mid f).2.users = db.users ∧
    (update_movie db mid f).2.movies.map (fun m => (m.id, m.user_id)) =
      db.movies.map fun m => (m.id, m.user_id) := by
  simp only [update_movie]
  split
  · exact ⟨rfl, rfl⟩
  · split
    · exact ⟨rfl, rfl⟩
    · split
      · refine ⟨rfl, ?_⟩
        simp only [List.map_map]
        apply List.map_congr_left
        intro x _
        by_cases hx : x.id = mid <;> simp [applyFields, hx]
      · exact ⟨rfl, rfl⟩

/-- C10: updateMovie stores a supplied title verbatim, without trimming,
whenever it succeeds — while createUser and addMovie persist the trimmed
value. -/
theorem c10_update_title_verbatim :
    (∀ (db : DB) (mid : Nat) (f : UpdateFields) (t : String),
        f.title = some (some t) → ∀ m : Movie,
        (update_movie db mid f).1 = .ok m → m.title = t) ∧
    (∀ (db : DB) (name : String) (u : User),
        (create_user db name).1 = .ok u → u.name = pyStrip name) ∧
    (∀ (db : DB) (uid : Nat) (title : String) (d : Option String)
        (y : Option Int) (p : Option String) (m : Movie),
        (add_movie db uid title d y p).1 = .ok m → m.title = pyStrip title) := by
  refine ⟨?_, ?_, ?_⟩
  · intro db mid f t ht m
    simp only [update_movie]
    split
    · intro h; simp at h
    · split
      · intro h; simp at h
      · split
        · intro h
          simp only [Except.ok.injEq] at h
          subst h
          simp [applyFields, ht]
        · intro h; simp at h
  · intro db name u
    simp only [create_user]
    split
    · intro h; simp at h
    · split
      · intro h
        simp only [Except.ok.injEq] at h
        subst h
        rfl
      · intro h; simp at h
  · intro db uid title d y p m
    simp only [add_movie]
    split
    · intro h; simp at h
    · split
      · intro h; simp at h
      · split
        · intro h
          simp only [Except.ok.injEq] at h
          subst h
          rfl
        · intro h; simp at h

/-- Witness for C10: updating movie 1's title to "  Inception  " keeps
the surrounding whitespace, while creating "  Alice  " and adding
" Tenet " persist the trimmed values. -/
theorem c10_update_title_verbatim_witness :
    (update_movie ⟨[⟨1, "A"⟩], [⟨1, "Old", none, none, none, 1⟩], 2, 2⟩ 1
        { title := some (some "  Inception  ") }).1 =
      .ok ⟨1, "  Inception  ", none, none, none, 1⟩ ∧
    Movie.title ⟨1, "  Inception  ", none, none, none, 1⟩ = "  Inception  " ∧
    (create_user ⟨[], [], 1, 1⟩ "  Alice  ").1 = .ok ⟨1, "Alice"⟩ ∧
    User.name ⟨1, "Alice"⟩ = pyStrip "  Alice  " ∧
    (add_movie ⟨[⟨1, "A"⟩], [], 2, 1⟩ 1 " Tenet " none none none).1 =
      .ok ⟨1, "Tenet", none, none, none, 1⟩ ∧
    Movie.title ⟨1, "Tenet", none, none, none, 1⟩ = pyStrip " Tenet " :=
  ⟨rfl,
   c10_update_title_verbatim.1
     ⟨[⟨1, "A"⟩], [⟨1, "Old", none, none, none, 1⟩], 2, 2⟩ 1
     { title := some (some "  Inception  ") } "  Inception  " rfl
     ⟨1, "  Inception  ", none, none, none, 1⟩ rfl,
   rfl,
   c10_update_title_verbatim.2.1 ⟨[], [], 1, 1⟩ "  Alice  " ⟨1, "Alice"⟩ rfl,
   rfl,
   c10_update_title_verbatim.2.2 ⟨[⟨1, "A"⟩], [], 2, 1⟩ 1 " Tenet "
     none none none ⟨1, "Tenet", none, none, none, 1⟩ rfl⟩

/-- C5: deleting a user deletes all of that user's movies — afterwards no
movie referencing that user remains — and the foreign-key invariant
"every persisted Movie has an existing owning User" is preserved by
user deletion and by every mutating DataManager operation. -/
theorem c5_cascade_delete :
    (∀ (db : DB) (uid : Nat), ∀ m ∈ (delete_user db uid).movies,
        m.user_id ≠ uid) ∧
    (∀ (db : DB) (uid : Nat), fkOK db.users db.movies = true →
        fkOK (delete_user db uid).users (delete_user db uid).movies = true) ∧
    (∀ (db : DB) (name : String), fkOK db.users db.movies = true →
        fkOK (create_user db name).2.users (create_user db name).2.movies = true) ∧
    (∀ (db : DB) (uid : Nat) (title : String) (d : Option String)
        (y : Option Int) (p : Option String), fkOK db.users db.movies = true →
        fkOK (add_movie db uid title d y p).2.users
          (add_movie db uid title d y p).2.movies = true) ∧
    (∀ (db : DB) (mid : Nat) (f : UpdateFields), fkOK db.users db.movies = true →
        fkOK (update_movie db mid f).2.users
          (update_movie db mid f).2.movies = true) ∧
    (∀ (db : DB) (mid : Nat), fkOK db.users db.movies = true →
        fkOK (delete_movie db mid).2.users (delete_movie db mid).2.movies = true) := by
  refine ⟨?_, ?_, ?_, ?_, ?_, ?_⟩
  · intro db uid m hm
    simp only [delete_user, List.mem_filter, Bool.not_eq_eq_eq_not, Bool.not_true,
      beq_eq_false_iff_ne] at hm
    exact hm.2
  · intro db uid h
    simp only [fkOK, delete_user, List.all_eq_true, List.any_eq_true,
      List.mem_filter, Bool.not_eq_eq_eq_not, Bool.not_true,
      beq_eq_false_iff_ne, beq_iff_eq] at h ⊢
    rintro m ⟨hm, hmu⟩
    obtain ⟨u, hu, hue⟩ := h m hm
    refine ⟨u, ⟨hu, ?_⟩, hue⟩
    rw [hue]
    exact hmu
  · intro db name h
    simp only [create_user]
    split
    · exact h
    · split
      · exact fkOK_append_user _ _ _ h
      · exact h
  · intro db uid title d y p h
    simp only [add_movie]
    split
    · exact h
    · split
      · exact h
      · split
        · rename_i hok
          simp only [integrityOK, Bool.and_eq_true] at hok
          exact hok.2
        · exact h
  · intro db mid f h
    simp only [update_movie]
    split
    · exact h
    · split
      · exact h
      · split
        · rename_i hok
          simp only [integrityOK, Bool.and_eq_true] at hok
          exact hok.2
        · exact h
  · intro db mid h
    simp only [delete_movie]
    split
    · simp only [fkOK, List.all_eq_true] at h ⊢
      intro m hm
      exact h m (List.mem_of_mem_filter hm)
    · exact h

/-- Witness for C5 on a store with users 1, 2 each owning one movie:
after deleting user 1, its movie is gone, the foreign-key invariant
still holds, and it is likewise preserved by concrete runs of the other
mutating operations. -/
theorem c5_cascade_delete_witness :
    Movie.user_id ⟨2, "N", none, none, none, 2⟩ ≠ 1 ∧
    fkOK (delete_user ⟨[⟨1, "A"⟩, ⟨2, "B"⟩],
        [⟨1, "M", none, none, none, 1⟩, ⟨2, "N", none, none, none, 2⟩],
        3, 3⟩ 1).users
      (delete_user ⟨[⟨1, "A"⟩, ⟨2, "B"⟩],
        [⟨1, "M", none, none, none, 1⟩, ⟨2, "N", none, none, none, 2⟩],
        3, 3⟩ 1).movies = true ∧
    fkOK (create_user ⟨[⟨1, "A"⟩], [], 2, 1⟩ "B").2.users
      (create_user ⟨[⟨1, "A"⟩], [], 2, 1⟩ "B").2.movies = true ∧
    fkOK (add_movie ⟨[⟨1, "A"⟩], [], 2, 1⟩ 1 "M" none none none).2.users
      (add_movie ⟨[⟨1, "A"⟩], [], 2, 1⟩ 1 "M" none none none).2.movies = true ∧
    fkOK (update_movie ⟨[⟨1, "A"⟩], [⟨1, "M", none, none, none, 1⟩], 2, 2⟩ 1
        { title := some (some "P") }).2.users
      (update_movie ⟨[⟨1, "A"⟩], [⟨1, "M", none, none, none, 1⟩], 2, 2⟩ 1
        { title := some (some "P") }).2.movies = true ∧
    fkOK (delete_movie ⟨[⟨1, "A"⟩], [⟨1, "M", none, none, none, 1⟩], 2, 2⟩ 1).2.users
      (delete_movie ⟨[⟨1, "A"⟩], [⟨1, "M", none, none, none, 1⟩], 2, 2⟩ 1).2.movies =
        true :=
  ⟨c5_cascade_delete.1 ⟨[⟨1, "A"⟩, ⟨2, "B"⟩],
      [⟨1, "M", none, none, none, 1⟩, ⟨2, "N", none, none, none, 2⟩], 3, 3⟩ 1
      ⟨2, "N", none, none, none, 2⟩ (by decide),
   c5_cascade_delete.2.1 ⟨[⟨1, "A"⟩, ⟨2, "B"⟩],
      [⟨1, "M", none, none, none, 1⟩, ⟨2, "N", none, none, none, 2⟩], 3, 3⟩ 1
      (by decide),
   c5_cascade_delete.2.2.1 ⟨[⟨1, "A"⟩], [], 2, 1⟩ "B" (by decide),
   c5_cascade_delete.2.2.2.1 ⟨[⟨1, "A"⟩], [], 2, 1⟩ 1 "M" none none none
      (by decide),
   c5_cascade_delete.2.2.2.2.1 ⟨[⟨1, "A"⟩], [⟨1, "M", none, none, none, 1⟩], 2, 2⟩
      1 { title := some (some "P") } (by decide),
   c5_cascade_delete.2.2.2.2.2 ⟨[⟨1, "A"⟩], [⟨1, "M", none, none, none, 1⟩], 2, 2⟩
      1 (by decide)⟩

/-- C4 counterexample: on an empty store, a PUT/PATCH
`/api/movies/1` request fails because movie 1 does not exist, yet the
JSON response status is 400, not the 404 the claim requires for every
JSON route. -/
theorem c4_counterexample :
    (api_update_movie ⟨[], [], 1, 1⟩ 1 {}).1 = (400, .err "Movie not found.") ∧
    (400 : Nat) ≠ 404 :=
  ⟨rfl, by decide⟩

/-- C4 as amended: not-found failures in the JSON surface always carry a
structured {error: message} body; GET `/api/users/<userId>/movies` and
DELETE `/api/movies/<movieId>` answer 404, but the routes that surface
DataManager errors wholesale answer 400 — PUT/PATCH
`/api/movies/<movieId>` for a missing movie and POST
`/api/users/<userId>/movies` for a missing user. -/
theorem c4_json_not_found_statuses :
    (∀ (db : DB) (uid : Nat), (¬∃ u ∈ db.users, u.id = uid) →
        api_user_movies db uid = ((404, .err "user not found"), db)) ∧
    (∀ (db : DB) (mid : Nat), (¬∃ m ∈ db.movies, m.id = mid) →
        api_delete_movie db mid = ((404, .err "Movie not found."), db)) ∧
    (∀ (db : DB) (mid : Nat) (f : UpdateFields), (¬∃ m ∈ db.movies, m.id = mid) →
        api_update_movie db mid f = ((400, .err "Movie not found."), db)) ∧
    (∀ (db : DB) (uid : Nat) (pt : Option String)
        (fetch : String → Except String (Option OmdbInfo)) (info : OmdbInfo),
        pyStrip (pt.getD "") ≠ "" →
        fetch (pyStrip (pt.getD "")) = .ok (some info) →
        info.Response ≠ some "False" →
        pyStrip (pyOr info.Title (pyStrip (pt.getD ""))) ≠ "" →
        (¬∃ u ∈ db.users, u.id = uid) →
        api_add_movie db uid pt fetch = ((400, .err "User does not exist."), db)) := by
  refine ⟨?_, ?_, ?_, ?_⟩
  · intro db uid hno
    have hfind : get_user db uid = none := by
      simp only [get_user, List.find?_eq_none, beq_iff_eq]
      intro u hu he
      exact hno ⟨u, hu, he⟩
    simp [api_user_movies, hfind]
  · intro db mid hno
    have hany : (db.movies.any fun m => m.id == mid) = false := by
      simp only [List.any_eq_false, beq_iff_eq]
      intro m hm he
      exact hno ⟨m, hm, he⟩
    simp [api_delete_movie, delete_movie, hany, DMError.message]
  · intro db mid f hno
    have hfind : (db.movies.find? fun m => m.id == mid) = none := by
      simp only [List.find?_eq_none, beq_iff_eq]
      intro m hm he
      exact hno ⟨m, hm, he⟩
    simp [api_update_movie, update_movie, hfind, DMError.message]
  · intro db uid pt fetch info ht hfetch hresp htitle hno
    have hanyu : (db.users.any fun u => u.id == uid) = false := by
      simp only [List.any_eq_false, beq_iff_eq]
      intro u hu he
      exact hno ⟨u, hu, he⟩
    simp [api_add_movie, ht, hfetch, hresp, add_movie, htitle, hanyu,
      DMError.message]

/-- Witness for the amended C4 on concrete stores: a missing user on the
listing route gives 404, a missing movie on DELETE gives 404, a missing
movie on PUT/PATCH gives 400, and a missing user on the JSON add-movie
route gives 400 even though the OMDb lookup succeeded. -/
theorem c4_json_not_found_statuses_witness :
    api_user_movies ⟨[], [], 1, 1⟩ 7 = ((404, .err "user not found"), ⟨[], [], 1, 1⟩) ∧
    api_delete_movie ⟨[], [], 1, 1⟩ 7 =
      ((404, .err "Movie not found."), ⟨[], [], 1, 1⟩) ∧
    api_update_movie ⟨[], [], 1, 1⟩ 7 {} =
      ((400, .err "Movie not found."), ⟨[], [], 1, 1⟩) ∧
    api_add_movie ⟨[], [], 1, 1⟩ 7 (some "Tenet")
        (fun _ => .ok (some { Title := some "Tenet", Response := some "True" })) =
      ((400, .err "User does not exist."), ⟨[], [], 1, 1⟩) :=
  ⟨c4_json_not_found_statuses.1 ⟨[], [], 1, 1⟩ 7 (by decide),
   c4_json_not_found_statuses.2.1 ⟨[], [], 1, 1⟩ 7 (by decide),
   c4_json_not_found_statuses.2.2.1 ⟨[], [], 1, 1⟩ 7 {} (by decide),
   c4_json_not_found_statuses.2.2.2 ⟨[], [], 1, 1⟩ 7 (some "Tenet")
     (fun _ => .ok (some { Title := some "Tenet", Response := some "True" }))
     { Title := some "Tenet", Response := some "True" }
     (by decide) rfl (by decide) (by decide) (by decide)⟩

/-- OMDb response fixture used by the route witnesses. -/
def infoNolan : OmdbInfo :=
  { Title := some "Inception", Director := some "Nolan",
    Year := some "2001–2003", Poster := some "N/A", Response := some "True" }

/-- Network oracle fixture that always answers with `infoNolan`. -/
def fetchNolan : String → Except String (Option OmdbInfo) :=
  fun _ => .ok (some infoNolan)

/-- `add_movie` either leaves the store unchanged (any error path) or
appends exactly the staged row. -/
theorem add_movie_state (db : DB) (uid : Nat) (title : String)
    (d : Option String) (y : Option Int) (p : Option String) :
    (add_movie db uid title d y p).2 = db ∨
    (add_movie db uid title d y p).2.movies =
      db.movies ++ [{ id := db.nextMovieId, title := pyStrip title,
                      director := d, year := y, poster_url := p,
                      user_id := uid }] := by
  simp only [add_movie]
  split
  · exact Or.inl rfl
  · split
    · exact Or.inl rfl
    · split
      · exact Or.inr rfl
      · exact Or.inl rfl

/-- The HTML add-movie route either leaves the store unchanged or appends
exactly the row staged from the OMDb metadata. -/
theorem add_movie_route_state (db : DB) (uid : Nat) (ft : Option String)
    (fetch : String → Except String (Option OmdbInfo)) (info : OmdbInfo)
    (hfetch : fetch (pyStrip (ft.getD "")) = .ok (some info)) :
    (add_movie_route db uid ft fetch).2 = db ∨
    (add_movie_route db uid ft fetch).2.movies =
      db.movies ++ [{ id := db.nextMovieId,
                      title := pyStrip (pyOr info.Title (pyStrip (ft.getD ""))),
                      director := some (pyOr info.Director "Unknown"),
                      year := parseYearField info.Year,
                      poster_url := posterField info.Poster,
                      user_id := uid }] := by
  simp only [add_movie_route, hfetch]
  split
  · exact Or.inl rfl
  · split
    · exact Or.inl rfl
    · have hst := add_movie_state db uid (pyOr info.Title (pyStrip (ft.getD "")))
        (some (pyOr info.Director "Unknown")) (parseYearField info.Year)
        (posterField info.Poster)
      split
      all_goals rename_i heq
      all_goals rw [heq] at hst
      all_goals simpa using hst

/-- The JSON add-movie route either leaves the store unchanged or appends
exactly the row staged from the OMDb metadata. -/
theorem api_add_movie_state (db : DB) (uid : Nat) (pt : Option String)
    (fetch : String → Except String (Option OmdbInfo)) (info : OmdbInfo)
    (hfetch : fetch (pyStrip (pt.getD "")) = .ok (some info)) :
    (api_add_movie db uid pt fetch).2 = db ∨
    (api_add_movie db uid pt fetch).2.movies =
      db.movies ++ [{ id := db.nextMovieId,
                      title := pyStrip (pyOr info.Title (pyStrip (pt.getD ""))),
                      director := some (pyOr info.Director "Unknown"),
                      year := parseYearField info.Year,
                      poster_url := posterField info.Poster,
                      user_id := uid }] := by
  simp only [api_add_movie, hfetch]
  split
  · exact Or.inl rfl
  · split
    · exact Or.inl rfl
    · have hst := add_movie_state db uid (pyOr info.Title (pyStrip (pt.getD "")))
        (some (pyOr info.Director "Unknown")) (parseYearField info.Year)
        (posterField info.Poster)
      split
      all_goals rename_i heq
      all_goals rw [heq] at hst
      all_goals simpa using hst

/-- A list never equals itself with one more element appended. -/
theorem self_ne_append_one {α : Type} (l : List α) (a : α) : l ≠ l ++ [a] := by
  intro h
  have := congrArg List.length h
  simp at this

/-- C6: in both movie-add routes the persisted year is computed by taking
the text before an en-dash separator, trimming it, and converting it to
an integer only when all digits, otherwise leaving the year absent; in
particular "2001–2003" yields 2001. -/
theorem c6_year_parsing (db : DB) (uid : Nat) (ft : Option String)
    (fetch : String → Except String (Option OmdbInfo)) (info : OmdbInfo)
    (hfetch : fetch (pyStrip (ft.getD "")) = .ok (some info)) :
    (∀ m : Movie, (add_movie_route db uid ft fetch).2.movies = db.movies ++ [m] →
        m.year = parseYearField info.Year) ∧
    (∀ m : Movie, (api_add_movie db uid ft fetch).2.movies = db.movies ++ [m] →
        m.year = parseYearField info.Year) ∧
    parseYearField (some "2001–2003") = some 2001 ∧
    (∀ y : String, pyIsdigit (pyStrip (beforeEnDash y)) = false →
        parseYearField (some y) = none) := by
  refine ⟨?_, ?_, by decide, ?_⟩
  · intro m hm
    rcases add_movie_route_state db uid ft fetch info hfetch with h | h
    · rw [h] at hm
      exact absurd hm (self_ne_append_one _ _)
    · rw [h] at hm
      have hme := List.append_cancel_left hm
      simp only [List.cons.injEq, and_true] at hme
      rw [← hme]
  · intro m hm
    rcases api_add_movie_state db uid ft fetch info hfetch with h | h
    · rw [h] at hm
      exact absurd hm (self_ne_append_one _ _)
    · rw [h] at hm
      have hme := List.append_cancel_left hm
      simp only [List.cons.injEq, and_true] at hme
      rw [← hme]
  · intro y hy
    simp [parseYearField, hy]

/-- Witness for C6: with OMDb metadata Year "2001–2003" both routes
persist year 2001. -/
theorem c6_year_parsing_witness :
    (add_movie_route ⟨[⟨1, "A"⟩], [], 2, 1⟩ 1 (some "inception")
        fetchNolan).2.movies =
      [⟨1, "Inception", some "Nolan", some 2001, none, 1⟩] ∧
    Movie.year ⟨1, "Inception", some "Nolan", some 2001, none, 1⟩ =
      parseYearField (some "2001–2003") :=
  ⟨by decide,
   (c6_year_parsing ⟨[⟨1, "A"⟩], [], 2, 1⟩ 1 (some "inception")
      fetchNolan infoNolan rfl).1
     ⟨1, "Inception", some "Nolan", some 2001, none, 1⟩ (by decide)⟩

/-- C7: in both movie-add routes the persisted poster_url equals the
metadata poster field unless that field is absent or the literal "N/A",
in which case it is absent; the persisted value is never the literal
"N/A". -/
theorem c7_poster_sentinel (db : DB) (uid : Nat) (ft : Option String)
    (fetch : String → Except String (Option OmdbInfo)) (info : OmdbInfo)
    (hfetch : fetch (pyStrip (ft.getD "")) = .ok (some info)) :
    (∀ m : Movie, (add_movie_route db uid ft fetch).2.movies = db.movies ++ [m] →
        m.poster_url = posterField info.Poster) ∧
    (∀ m : Movie, (api_add_movie db uid ft fetch).2.movies = db.movies ++ [m] →
        m.poster_url = posterField info.Poster) ∧
    posterField none = none ∧
    posterField (some "N/A") = none ∧
    (∀ p : String, p ≠ "N/A" → posterField (some p) = some p) ∧
    (∀ p : Option String, posterField p ≠ some "N/A") := by
  refine ⟨?_, ?_, by decide, by decide, ?_, ?_⟩
  · intro m hm
    rcases add_movie_route_state db uid ft fetch info hfetch with h | h
    · rw [h] at hm
      exact absurd hm (self_ne_append_one _ _)
    · rw [h] at hm
      have hme := List.append_cancel_left hm
      simp only [List.cons.injEq, and_true] at hme
      rw [← hme]
  · intro m hm
    rcases api_add_movie_state db uid ft fetch info hfetch with h | h
    · rw [h] at hm
      exact absurd hm (self_ne_append_one _ _)
    · rw [h] at hm
      have hme := List.append_cancel_left hm
      simp only [List.cons.injEq, and_true] at hme
      rw [← hme]
  · intro p hp
    simp [posterField, hp]
  · intro p
    simp only [posterField]
    split
    · exact Option.noConfusion
    · rename_i hcond
      intro he
      exact hcond (Or.inr he)

/-- Witness for C7: with OMDb metadata Poster "N/A" both routes persist
an absent poster_url, not the literal string. -/
theorem c7_poster_sentinel_witness :
    (api_add_movie ⟨[⟨1, "A"⟩], [], 2, 1⟩ 1 (some "inception")
        fetchNolan).2.movies =
      [⟨1, "Inception", some "Nolan", some 2001, none, 1⟩] ∧
    Movie.poster_url ⟨1, "Inception", some "Nolan", some 2001, none, 1⟩ =
      posterField (some "N/A") :=
  ⟨by decide,
   (c7_poster_sentinel ⟨[⟨1, "A"⟩], [], 2, 1⟩ 1 (some "inception")
      fetchNolan infoNolan rfl).2.1
     ⟨1, "Inception", some "Nolan", some 2001, none, 1⟩ (by decide)⟩

/-- C8: with no OMDb API key configured, every call to fetchByTitle fails
immediately with a configuration error whose message begins
"OMDB_API_KEY is not set", and no network request is issued. -/
theorem c8_missing_api_key (key : Option String) (title : String)
    (net : OmdbRequest → Except String (Option OmdbInfo))
    (h : key.getD "" = "") :
    (∃ msg : String, (fetch_omdb_by_title key title net).1 = .error msg ∧
        "OMDB_API_KEY is not set".data <+: msg.data) ∧
    (fetch_omdb_by_title key title net).2 = [] := by
  refine ⟨⟨"OMDB_API_KEY is not set. Create a .env file or export the variable.",
    ?_, by decide⟩, ?_⟩
  · simp [fetch_omdb_by_title, h]
  · simp [fetch_omdb_by_title, h]

/-- Witness for C8: with an unset key and an arbitrary network oracle the
call errors with the configuration message and issues no request. -/
theorem c8_missing_api_key_witness :
    (∃ msg : String,
        (fetch_omdb_by_title none "Inception" (fun _ => .ok none)).1 =
          .error msg ∧
        "OMDB_API_KEY is not set".data <+: msg.data) ∧
    (fetch_omdb_by_title none "Inception" (fun _ => .ok none)).2 = [] :=
  c8_missing_api_key none "Inception" (fun _ => .ok none) rfl

end MoviWeb
